import Mathlib

/-!
Shallow embedding of the integrated RFID/face attendance system
(`src/Testcode.py`, class `IntegratedAttendanceSystem`) and proofs of the
specification's claims about it.

External capabilities (RFID reader, camera/biometric model, clock, the two
stores' availability) are modelled as explicit inputs: every tap event carries
the token read, the formatted wall-clock strings the code would obtain from
`datetime.now()`, and oracles giving the outcome of the face-verification
window and of each fallible store write.  All program state that the Python
object holds (`students`/`lecturers`/`attendance_log` tables, the Firestore
mirror, `current_session`, `temp_attendance`, `persistent_rfid_attendance`,
`new_rfid_attendance`) is carried in an explicit `SysState` record.
-/

/-! ## SHA-256 (`hashlib.sha256(...).hexdigest()[:16]` in `generate_unique_id`)

The hash is implemented over `Nat` with explicit `% 2 ^ 32` reductions.  The
round constants are derived, as in the SHA-256 standard, from the fractional
parts of the cube roots (resp. square roots) of the first 64 (resp. 8) primes.
-/

/-- Integer cube root of `n` by bounded binary search: `icbrtGo n fuel lo hi`
maintains `lo ^ 3 ≤ n < hi ^ 3`; the fuel argument makes the recursion
structural. -/
def icbrtGo (n : Nat) : Nat → Nat → Nat → Nat
  | 0, lo, _ => lo
  | fuel + 1, lo, hi =>
    if hi ≤ lo + 1 then lo
    else
      let m := (lo + hi) / 2
      if m * m * m ≤ n then icbrtGo n fuel m hi else icbrtGo n fuel lo m

/-- Integer cube root: the largest `c` with `c ^ 3 ≤ n`. -/
def icbrt (n : Nat) : Nat := icbrtGo n (n + 2) 0 (n + 1)

/-- The first 64 primes, as used by the SHA-256 constant schedule. -/
def sha256Primes : List Nat :=
  [2, 3, 5, 7, 11, 13, 17, 19, 23, 29, 31, 37, 41, 43, 47, 53,
   59, 61, 67, 71, 73, 79, 83, 89, 97, 101, 103, 107, 109, 113, 127, 131,
   137, 139, 149, 151, 157, 163, 167, 173, 179, 181, 191, 193, 197, 199, 211, 223,
   227, 229, 233, 239, 241, 251, 257, 263, 269, 271, 277, 281, 283, 293, 307, 311]

/-- SHA-256 round constants: first 32 bits of the fractional parts of the cube
roots of the first 64 primes. -/
def sha256K : List Nat := sha256Primes.map (fun p => icbrt (p * 2 ^ 96) % 2 ^ 32)

/-- SHA-256 initial hash value: first 32 bits of the fractional parts of the
square roots of the first 8 primes. -/
def sha256H0 : List Nat :=
  (sha256Primes.take 8).map (fun p => Nat.sqrt (p * 2 ^ 64) % 2 ^ 32)

/-- Reduce to a 32-bit word. -/
def w32 (n : Nat) : Nat := n % 2 ^ 32

/-- Right rotation of a 32-bit word by `k` bits. -/
def rotr32 (x k : Nat) : Nat := w32 (x / 2 ^ k + x % 2 ^ k * 2 ^ (32 - k))

/-- Bitwise complement of a 32-bit word. -/
def not32 (x : Nat) : Nat := 2 ^ 32 - 1 - w32 x

/-- SHA-256 big sigma-0. -/
def bigSigma0 (x : Nat) : Nat := (rotr32 x 2) ^^^ (rotr32 x 13) ^^^ (rotr32 x 22)

/-- SHA-256 big sigma-1. -/
def bigSigma1 (x : Nat) : Nat := (rotr32 x 6) ^^^ (rotr32 x 11) ^^^ (rotr32 x 25)

/-- SHA-256 small sigma-0. -/
def smallSigma0 (x : Nat) : Nat := (rotr32 x 7) ^^^ (rotr32 x 18) ^^^ (x / 2 ^ 3)

/-- SHA-256 small sigma-1. -/
def smallSigma1 (x : Nat) : Nat := (rotr32 x 17) ^^^ (rotr32 x 19) ^^^ (x / 2 ^ 10)

/-- SHA-256 choice function. -/
def chWord (x y z : Nat) : Nat := (x &&& y) ^^^ (not32 x &&& z)

/-- SHA-256 majority function. -/
def majWord (x y z : Nat) : Nat := (x &&& y) ^^^ (x &&& z) ^^^ (y &&& z)

/-- The eight working registers of the SHA-256 compression function. -/
structure Sha256Regs where
  a : Nat
  b : Nat
  c : Nat
  d : Nat
  e : Nat
  f : Nat
  g : Nat
  h : Nat

/-- One round of the SHA-256 compression function. -/
def sha256Round (r : Sha256Regs) (k w : Nat) : Sha256Regs :=
  let t1 := w32 (r.h + bigSigma1 r.e + chWord r.e r.f r.g + k + w)
  let t2 := w32 (bigSigma0 r.a + majWord r.a r.b r.c)
  ⟨w32 (t1 + t2), r.a, r.b, r.c, w32 (r.d + t1), r.e, r.f, r.g⟩

/-- Extend the 16-word message block by `t` further schedule words. -/
def sha256Extend : Nat → List Nat → List Nat
  | 0, w => w
  | t + 1, w =>
    let n := w.length
    let wi := w32 (smallSigma1 (w.getD (n - 2) 0) + w.getD (n - 7) 0 +
                   smallSigma0 (w.getD (n - 15) 0) + w.getD (n - 16) 0)
    sha256Extend t (w ++ [wi])

/-- Compress one 16-word block into the chaining value. -/
def sha256Compress (hs : List Nat) (block : List Nat) : List Nat :=
  let ws := sha256Extend 48 block
  let r0 : Sha256Regs :=
    ⟨hs.getD 0 0, hs.getD 1 0, hs.getD 2 0, hs.getD 3 0,
     hs.getD 4 0, hs.getD 5 0, hs.getD 6 0, hs.getD 7 0⟩
  let rf := (List.zip sha256K ws).foldl (fun r kw => sha256Round r kw.1 kw.2) r0
  [w32 (hs.getD 0 0 + rf.a), w32 (hs.getD 1 0 + rf.b), w32 (hs.getD 2 0 + rf.c),
   w32 (hs.getD 3 0 + rf.d), w32 (hs.getD 4 0 + rf.e), w32 (hs.getD 5 0 + rf.f),
   w32 (hs.getD 6 0 + rf.g), w32 (hs.getD 7 0 + rf.h)]

/-- Big-endian byte expansion of `v` to `n` bytes. -/
def beBytes : Nat → Nat → List Nat
  | 0, _ => []
  | n + 1, v => beBytes n (v / 256) ++ [v % 256]

/-- SHA-256 padding: append `0x80`, zero bytes up to 56 mod 64, then the
64-bit big-endian bit length. -/
def sha256Pad (msg : List Nat) : List Nat :=
  msg ++ [128] ++ List.replicate ((119 - msg.length % 64) % 64) 0 ++
    beBytes 8 (8 * msg.length)

/-- Group bytes into big-endian 32-bit words. -/
def bytesToWords : List Nat → List Nat
  | b0 :: b1 :: b2 :: b3 :: rest =>
    (((b0 * 256 + b1) * 256 + b2) * 256 + b3) :: bytesToWords rest
  | _ => []

/-- Fold the compression function over the given number of 16-word blocks. -/
def sha256Blocks : Nat → List Nat → List Nat → List Nat
  | 0, hs, _ => hs
  | n + 1, hs, ws => sha256Blocks n (sha256Compress hs (ws.take 16)) (ws.drop 16)

/-- SHA-256 digest (as eight 32-bit words) of a byte sequence. -/
def sha256Digest (msg : List Nat) : List Nat :=
  let ws := bytesToWords (sha256Pad msg)
  sha256Blocks (ws.length / 16) sha256H0 ws

/-- Lower-case hexadecimal digit. -/
def hexDigit (n : Nat) : Char :=
  if n < 10 then Char.ofNat (48 + n) else Char.ofNat (87 + n)

/-- Eight hex characters of a 32-bit word, most significant first. -/
def hexWord (v : Nat) : List Char :=
  (List.range 8).map (fun i => hexDigit (v / 2 ^ (28 - 4 * i) % 16))

/-- Hexadecimal digest string of a byte sequence (`hexdigest()`). -/
def sha256Hex (msg : List Nat) : String :=
  ⟨(sha256Digest msg).foldr (fun w acc => hexWord w ++ acc) []⟩

/-- UTF-8 encoding of one character, as byte values (`name.encode()`). -/
def utf8Bytes (c : Char) : List Nat :=
  let n := c.toNat
  if n < 128 then [n]
  else if n < 2048 then [192 + n / 64, 128 + n % 64]
  else if n < 65536 then [224 + n / 4096, 128 + n / 64 % 64, 128 + n % 64]
  else [240 + n / 262144, 128 + n / 4096 % 64, 128 + n / 64 % 64, 128 + n % 64]

/-- UTF-8 byte sequence of a string. -/
def strBytes (s : String) : List Nat := s.data.foldr (fun c acc => utf8Bytes c ++ acc) []

/-- The source's `generate_unique_id`: the first 16 hex characters of the
SHA-256 digest of the UTF-8 encoded name
(`hashlib.sha256(name.encode()).hexdigest()[:16]`). -/
def generate_unique_id (name : String) : String := (sha256Hex (strBytes name)).take 16

/-! ## Data model

Rows of the three SQLite tables (`init_local_db`), the two Firestore document
kinds, and the in-memory session state of `IntegratedAttendanceSystem`.
Face descriptors are opaque payloads (128-d vectors produced by the external
dlib model); their numeric content is never inspected by the control logic,
whose match outcome comes from the camera and is therefore an oracle input. -/

/-- An opaque face descriptor (external biometric payload). -/
abbrev FaceDesc := List Int

/-- A row of the `students` table:
`(unique_id TEXT PRIMARY KEY, name, rfid_id TEXT UNIQUE, face_descriptors BLOB)`. -/
structure StudentRow where
  unique_id : String
  name : String
  rfid_id : String
  face_descriptors : List FaceDesc
deriving DecidableEq

/-- A row of the `lecturers` table:
`(unique_id TEXT PRIMARY KEY, name, rfid_id TEXT UNIQUE, course_name, course_code)`. -/
structure LecturerRow where
  unique_id : String
  name : String
  rfid_id : String
  course_name : String
  course_code : String
deriving DecidableEq

/-- The value stored per student in the `new_rfid_attendance` /
`persistent_rfid_attendance` dicts: `{'name': ..., 'rfid_time': ...}`. -/
structure TapData where
  name : String
  rfid_time : String
deriving DecidableEq

/-- A row of the `attendance_log` table. -/
structure AttendanceRow where
  unique_id : String
  name : String
  date : String
  session_id : String
  rfid_time : String
  face_time : Option String
  status : String
deriving DecidableEq

/-- The Firestore session document `lectures/{session_id}`. -/
structure RemoteSessionDoc where
  session_id : String
  course_name : String
  course_code : String
  lecturer_name : String
  lecturer_rfid : String
  start_time : String
  status : String
deriving DecidableEq

/-- The Firestore attendance sub-document
`lectures/{session_id}/attendance/{rfid_id}`. -/
structure RemoteAttendanceDoc where
  session_id : String
  rfid_id : String
  unique_id : String
  name : String
  date : String
  time : String
  status : String
deriving DecidableEq

/-- A Python-dict of tap data keyed by `unique_id`, in insertion order. -/
abbrev TapDict := List (String × TapData)

/-- The complete state of the system: the local SQLite tables, the remote
Firestore mirror, the in-memory session fields of the Python object, a trace
of face-verification capture windows (one entry `(session_id, unique_id)` per
`verify_face` call), and the log of caught-and-logged errors. -/
structure SysState where
  students : List StudentRow
  lecturers : List LecturerRow
  attendance_log : List AttendanceRow
  remote_sessions : List RemoteSessionDoc
  remote_attendance : List RemoteAttendanceDoc
  current_session : Option String
  temp_attendance : TapDict
  persistent_rfid_attendance : TapDict
  new_rfid_attendance : TapDict
  verify_trace : List (String × String)
  errlog : List String
deriving DecidableEq

/-- The freshly initialized system (`__init__`): empty tables, no session,
empty staging dicts. -/
def initState : SysState :=
  ⟨[], [], [], [], [], none, [], [], [], [], []⟩

/-! ## Python-dict operations (insertion-ordered, update-by-key) -/

/-- Python `k in d`. -/
def dictHas (d : TapDict) (k : String) : Bool := d.any (fun kv => kv.1 == k)

/-- Python `d[k] = v`: replace in place if the key exists, else append. -/
def dictSet (d : TapDict) (k : String) (v : TapData) : TapDict :=
  if dictHas d k then d.map (fun kv => if kv.1 == k then (k, v) else kv)
  else d ++ [(k, v)]

/-- Python `d.update(e)`: set each pair of `e` in order. -/
def dictUpdate (d e : TapDict) : TapDict :=
  e.foldl (fun acc kv => dictSet acc kv.1 kv.2) d

/-! ## Identity store and enrollment (`is_rfid_registered`, `register_student`,
`register_lecturer`) -/

/-- Outcome of a registration attempt.  The Python functions return `None` on
every failure but take observably distinct branches (distinct printed message
and operator feedback): the pre-check duplicate-token rejection, the
insufficient-samples rejection, and the `sqlite3.IntegrityError` handler. -/
inductive RegisterResult
  | ok (uid : String)
  | duplicateToken
  | insufficientSamples
  | integrityError
deriving DecidableEq

/-- The source's `is_rfid_registered`: the token is bound to some identity in
either the `students` or the `lecturers` table. -/
def is_rfid_registered (st : SysState) (rfid : String) : Bool :=
  st.students.any (fun r => r.rfid_id == rfid) ||
    st.lecturers.any (fun r => r.rfid_id == rfid)

/-- The source's `register_student`.  Inputs: the token read from the reader,
the typed name, and the three guided capture attempts (`capture_face_samples`),
each returning a descriptor or `none` on failure.  The `INSERT` raises
`sqlite3.IntegrityError` when the `unique_id` primary key or the `rfid_id`
UNIQUE constraint collides with an existing row; the handler returns `None`
and nothing is persisted. -/
def register_student (st : SysState) (rfid name : String)
    (samples : List (Option FaceDesc)) : SysState × RegisterResult :=
  if is_rfid_registered st rfid then (st, .duplicateToken)
  else
    let unique_id := generate_unique_id name
    let face_descriptors := samples.filterMap id
    if face_descriptors.length < 2 then (st, .insufficientSamples)
    else if st.students.any (fun r => r.unique_id == unique_id) ||
            st.students.any (fun r => r.rfid_id == rfid) then
      (st, .integrityError)
    else
      ({ st with students := st.students ++ [⟨unique_id, name, rfid, face_descriptors⟩] },
       .ok unique_id)

/-- The source's `register_lecturer`: same token pre-check, no biometric step;
the `INSERT` into `lecturers` enforces that table's primary-key and UNIQUE
constraints. -/
def register_lecturer (st : SysState) (rfid name course_name course_code : String) :
    SysState × RegisterResult :=
  if is_rfid_registered st rfid then (st, .duplicateToken)
  else
    let unique_id := generate_unique_id name
    if st.lecturers.any (fun r => r.unique_id == unique_id) ||
        st.lecturers.any (fun r => r.rfid_id == rfid) then
      (st, .integrityError)
    else
      ({ st with lecturers :=
           st.lecturers ++ [⟨unique_id, name, rfid, course_name, course_code⟩] },
       .ok unique_id)

/-! ## Intake loop and verification pass (`mark_attendance_rfid`,
`verify_attendance`, `verify_face`, `log_attendance_to_firebase`) -/

/-- Per-pass environmental oracles consumed during a verification pass, indexed
by the student's `unique_id`: the outcome of the 30-second camera window
(`verify_face`), success of the local `INSERT INTO attendance_log`, success of
the Firestore mirror write, and the wall-clock strings the code formats from
`datetime.now()` at each point. -/
structure VerifyOracles where
  face : String → Bool
  localOk : String → Bool
  remoteOk : String → Bool
  vdate : String → String
  vtime : String → String
  fbdate : String → String
  fbtime : String → String

/-- Firestore `document(...).set(...)` for an attendance sub-document: upsert
keyed by `(session_id, rfid_id)`. -/
def remoteAttSet (docs : List RemoteAttendanceDoc) (doc : RemoteAttendanceDoc) :
    List RemoteAttendanceDoc :=
  if docs.any (fun d => d.session_id == doc.session_id && d.rfid_id == doc.rfid_id) then
    docs.map (fun d =>
      if d.session_id == doc.session_id && d.rfid_id == doc.rfid_id then doc else d)
  else docs ++ [doc]

/-- The source's `log_attendance_to_firebase`: look up the student's token,
then upsert the attendance sub-document keyed by token under the current
session.  Every exception (including remote-store unavailability) is caught
and logged; the function never mutates local tables or session state. -/
def log_attendance_to_firebase (st : SysState) (orc : VerifyOracles)
    (uid name status : String) : SysState :=
  match st.students.find? (fun r => r.unique_id == uid) with
  | none => { st with errlog := st.errlog ++ ["RFID not found for student " ++ name] }
  | some row =>
    match st.current_session with
    | none => { st with errlog := st.errlog ++ ["Firebase logging error"] }
    | some sid =>
      if orc.remoteOk uid then
        let doc : RemoteAttendanceDoc :=
          ⟨sid, row.rfid_id, uid, name, orc.fbdate uid, orc.fbtime uid, status⟩
        { st with remote_attendance := remoteAttSet st.remote_attendance doc }
      else { st with errlog := st.errlog ++ ["Firebase logging error"] }

/-- The attendance row written for one pending item during the verification
pass: status `present` with a `face_time` when the camera window matched,
status `partial` with no `face_time` otherwise. -/
def mkVerifyRec (orc : VerifyOracles) (sid : String) (kv : String × TapData) :
    AttendanceRow :=
  ⟨kv.1, kv.2.name, orc.vdate kv.1, sid, kv.2.rfid_time,
   if orc.face kv.1 then some (orc.vtime kv.1) else none,
   if orc.face kv.1 then "present" else "partial"⟩

/-- The `for unique_id, data in attendance_dict.items()` loop of
`verify_attendance`.  A pending item whose `unique_id` has no row in
`students` is skipped (`continue`).  Otherwise the camera window runs
(recorded in `verify_trace`), and the local insert is attempted: on success
the row is appended and the Firestore mirror write runs (failures swallowed);
on failure the raised `sqlite3` error propagates to the surrounding
`except` clause, which logs it and abandons the rest of the batch. -/
def verifyItems (orc : VerifyOracles) (sid : String) :
    SysState → TapDict → SysState
  | st, [] => st
  | st, (uid, data) :: rest =>
    match st.students.find? (fun r => r.unique_id == uid) with
    | none => verifyItems orc sid st rest
    | some _ =>
      let st1 := { st with verify_trace := st.verify_trace ++ [(sid, uid)] }
      if orc.localOk uid then
        let st2 := { st1 with attendance_log :=
                       st1.attendance_log ++ [mkVerifyRec orc sid (uid, data)] }
        let status := if orc.face uid then "present" else "partial"
        let st3 := log_attendance_to_firebase st2 orc uid data.name status
        verifyItems orc sid st3 rest
      else
        { st1 with errlog := st1.errlog ++ ["Face recognition attendance error"] }

/-- The source's `verify_attendance`: a no-op when no session is active,
otherwise the per-item loop above over the handed-in dict. -/
def verify_attendance (st : SysState) (orc : VerifyOracles) (d : TapDict) : SysState :=
  match st.current_session with
  | none => st
  | some sid => verifyItems orc sid st d

/-- One iteration's environmental input to the intake loop: the token read,
the wall-clock strings `datetime.now()` would format, whether the Firestore
session-metadata write succeeds (its failure raises out of the tap handler),
and the oracles for the verification pass a lecturer tap triggers. -/
structure TapInput where
  rfid : String
  timeStr : String
  dateStr : String
  sessionOk : Bool
  orc : VerifyOracles

/-- Classification of one intake-loop iteration.  `aborted` is the path where
an exception escapes the tap handler and is caught by the `except` clause
wrapping the whole `while True` loop, which logs it and returns. -/
inductive TapOutcome
  | sessionStarted (sid : String)
  | unregistered
  | duplicateConfirmed (uid : String)
  | duplicateInSession (uid : String)
  | newCheckIn (uid : String)
  | aborted
deriving DecidableEq

/-- Session-id derivation on a lecturer tap:
`f"{course_code}_{datetime.datetime.now().strftime('%Y%m%d_%H%M%S')}"`. -/
def mkSessionId (course_code timeStr : String) : String :=
  course_code ++ "_" ++ timeStr

/-- Firestore `document(session_id).set(...)` for the session metadata
document: upsert keyed by `session_id`. -/
def remoteSessionSet (docs : List RemoteSessionDoc) (doc : RemoteSessionDoc) :
    List RemoteSessionDoc :=
  if docs.any (fun d => d.session_id == doc.session_id) then
    docs.map (fun d => if d.session_id == doc.session_id then doc else d)
  else docs ++ [doc]

/-- Lecturer lookup by token (`SELECT ... FROM lecturers WHERE rfid_id=?`). -/
def lookupLecturer (st : SysState) (rfid : String) : Option LecturerRow :=
  st.lecturers.find? (fun r => r.rfid_id == rfid)

/-- Student lookup by token (`SELECT ... FROM students WHERE rfid_id=?`). -/
def lookupStudent (st : SysState) (rfid : String) : Option StudentRow :=
  st.students.find? (fun r => r.rfid_id == rfid)

/-- One iteration of the `while True` intake loop of `mark_attendance_rfid`.
A lecturer tap derives a new session id, writes the session metadata document
(whose failure raises and aborts the loop), activates the session, merges the
new-this-session dict into the persistent dict, runs the verification pass
over the full persistent dict, and clears the new dict.  A student tap is
classified against the two staging dicts; an unknown token is rejected. -/
def processTap (st : SysState) (e : TapInput) : SysState × TapOutcome :=
  match lookupLecturer st e.rfid with
  | some lec =>
    let sid := mkSessionId lec.course_code e.timeStr
    if e.sessionOk then
      let doc : RemoteSessionDoc :=
        ⟨sid, lec.course_name, lec.course_code, lec.name, e.rfid, e.timeStr, "active"⟩
      let rs := remoteSessionSet st.remote_sessions doc
      let st1 := { st with remote_sessions := rs, current_session := some sid }
      let pmerged := dictUpdate st1.persistent_rfid_attendance st1.new_rfid_attendance
      let st2 := { st1 with persistent_rfid_attendance := pmerged }
      let st3 := verify_attendance st2 e.orc st2.persistent_rfid_attendance
      ({ st3 with new_rfid_attendance := [] }, .sessionStarted sid)
    else
      ({ st with errlog := st.errlog ++ ["RFID attendance error"] }, .aborted)
  | none =>
    match lookupStudent st e.rfid with
    | none => (st, .unregistered)
    | some srow =>
      if dictHas st.persistent_rfid_attendance srow.unique_id then
        (st, .duplicateConfirmed srow.unique_id)
      else if dictHas st.new_rfid_attendance srow.unique_id then
        (st, .duplicateInSession srow.unique_id)
      else
        ({ st with new_rfid_attendance :=
             st.new_rfid_attendance ++ [(srow.unique_id, ⟨srow.name, e.timeStr⟩)] },
         .newCheckIn srow.unique_id)

/-- The intake loop over a scripted sequence of taps: processes taps in order
until the input is exhausted or an iteration aborts the loop. -/
def runTaps : SysState → List TapInput → SysState × List TapOutcome
  | st, [] => (st, [])
  | st, e :: es =>
    let p := processTap st e
    if p.2 = TapOutcome.aborted then (p.1, [TapOutcome.aborted])
    else
      let r := runTaps p.1 es
      (r.1, p.2 :: r.2)

/-- The `KeyboardInterrupt` handler of `run` (menu option 3): on an external
interrupt of the intake loop, `temp_attendance` is emptied and
`current_session` is reset; nothing else is touched. -/
def interruptCleanup (st : SysState) : SysState :=
  { st with temp_attendance := [], current_session := none }

/-- One top-level operation of a process run, as dispatched by `run`. -/
inductive Op
  | regStudent (rfid name : String) (samples : List (Option FaceDesc))
  | regLecturer (rfid name course_name course_code : String)
  | tap (e : TapInput)
  | interrupt

/-- Apply one operation to the state. -/
def applyOp (st : SysState) : Op → SysState
  | .regStudent rfid name samples => (register_student st rfid name samples).1
  | .regLecturer rfid name cn cc => (register_lecturer st rfid name cn cc).1
  | .tap e => (processTap st e).1
  | .interrupt => interruptCleanup st

/-- The state reached by a process run executing the given operations from a
fresh start. -/
def runOps (ops : List Op) : SysState := ops.foldl applyOp initState

/-! ## Derived notions used by the statements -/

/-- The key sequence of a staging dict. -/
def dictKeys (d : TapDict) : List String := d.map Prod.fst

/-- Number of attendance rows for a given `(unique_id, session_id)` pair. -/
def recordCount (log : List AttendanceRow) (uid sid : String) : Nat :=
  log.countP (fun r => r.unique_id == uid && r.session_id == sid)

/-- The staging-set invariant: both dicts have duplicate-free key sequences and
no identity appears in both the persistent (Confirmed) and the new dict. -/
def StagingInv (st : SysState) : Prop :=
  (dictKeys st.persistent_rfid_attendance).Nodup ∧
  (dictKeys st.new_rfid_attendance).Nodup ∧
  ∀ k ∈ dictKeys st.new_rfid_attendance, k ∉ dictKeys st.persistent_rfid_attendance

instance (st : SysState) : Decidable (StagingInv st) := by
  unfold StagingInv; infer_instance

/-- Equality of the local (authoritative) part of two states: everything except
the remote Firestore mirror and the error log. -/
def LocalEq (st1 st2 : SysState) : Prop :=
  st1.students = st2.students ∧
  st1.lecturers = st2.lecturers ∧
  st1.attendance_log = st2.attendance_log ∧
  st1.current_session = st2.current_session ∧
  st1.temp_attendance = st2.temp_attendance ∧
  st1.persistent_rfid_attendance = st2.persistent_rfid_attendance ∧
  st1.new_rfid_attendance = st2.new_rfid_attendance ∧
  st1.verify_trace = st2.verify_trace

/-- Agreement of two oracle bundles on everything the local state can depend
on (the remote-write availability and the remote-side clock may differ). -/
def OrcLocalEq (o1 o2 : VerifyOracles) : Prop :=
  o1.face = o2.face ∧ o1.localOk = o2.localOk ∧ o1.vdate = o2.vdate ∧ o1.vtime = o2.vtime

/-- Two tap inputs that model the same physical run under possibly different
remote-store availability. -/
def SameButRemote (e1 e2 : TapInput) : Prop :=
  e1.rfid = e2.rfid ∧ e1.timeStr = e2.timeStr ∧ e1.dateStr = e2.dateStr ∧
  e1.sessionOk = e2.sessionOk ∧ OrcLocalEq e1.orc e2.orc

/-! ## Concrete fixtures for witnesses and counterexamples -/

/-- Oracle bundle on which every store write succeeds and every face matches. -/
def oracleAll : VerifyOracles :=
  ⟨fun _ => true, fun _ => true, fun _ => true,
   fun _ => "2025-01-10", fun _ => "09:00:05", fun _ => "2025-01-10", fun _ => "09:00:06"⟩

/-- Oracle bundle on which the local insert for student `u1` fails. -/
def oracleLocalFail : VerifyOracles :=
  ⟨fun _ => true, fun u => !(u == "u1"), fun _ => true,
   fun _ => "2025-01-10", fun _ => "09:00:05", fun _ => "2025-01-10", fun _ => "09:00:06"⟩

/-- Oracle bundle on which every remote mirror write fails. -/
def oracleRemoteFail : VerifyOracles :=
  ⟨fun _ => true, fun _ => true, fun _ => false,
   fun _ => "2025-01-10", fun _ => "09:00:05", fun _ => "2025-01-10", fun _ => "09:00:06"⟩

/-- An enrolled student fixture. -/
def stuA : StudentRow := ⟨"u1", "Ada", "t1", [[1], [2]]⟩

/-- A second enrolled student fixture. -/
def stuB : StudentRow := ⟨"u2", "Bob", "t2", [[3], [4]]⟩

/-- A third enrolled student fixture. -/
def stuC : StudentRow := ⟨"u3", "Cyn", "t3", [[5], [6]]⟩

/-- An enrolled lecturer fixture. -/
def lecRow : LecturerRow := ⟨"L1", "Prof", "LT", "Algorithms", "CS101"⟩

/-- A base state with three students and one lecturer enrolled and no session
activity yet. -/
def baseSt : SysState :=
  { initState with students := [stuA, stuB, stuC], lecturers := [lecRow] }

/-- A student tap event under the all-success oracle. -/
def tapStu (t : String) : TapInput := ⟨t, "08:00:00", "2025-01-10", true, oracleAll⟩

/-- A lecturer tap event under the all-success oracle, at the given formatted
wall-clock second. -/
def tapLec (ts : String) : TapInput := ⟨"LT", ts, "2025-01-10", true, oracleAll⟩

/-- A lecturer tap event whose verification pass hits a local-store write
failure on student `u1`. -/
def tapLecLocalFail (ts : String) : TapInput := ⟨"LT", ts, "2025-01-10", true, oracleLocalFail⟩

/-- A lecturer tap event under remote-store unavailability for the mirror
writes. -/
def tapLecRemoteFail (ts : String) : TapInput := ⟨"LT", ts, "2025-01-10", true, oracleRemoteFail⟩

/-- A state in which a student named `Alice` is already enrolled, so her
`unique_id` (derived from the name alone) is taken. -/
def dupNameSt : SysState :=
  { initState with students := [⟨generate_unique_id "Alice", "Alice", "t1", [[1], [2]]⟩] }

/-- A state with three staged (pending) check-ins awaiting verification. -/
def pendingSt : SysState :=
  { baseSt with new_rfid_attendance :=
      [("u2", ⟨"Bob", "08:00:00"⟩), ("u1", ⟨"Ada", "08:00:01"⟩), ("u3", ⟨"Cyn", "08:00:02"⟩)] }

/-- A state in which student `u1` is already in the Confirmed (persistent)
set. -/
def confSt : SysState :=
  { baseSt with persistent_rfid_attendance := [("u1", ⟨"Ada", "08:00:00"⟩)] }

/-- A mid-run state with an active session, one confirmed and one newly staged
check-in — the state an external interrupt might hit. -/
def haltSt : SysState :=
  { baseSt with current_session := some "CS101_20250110_090000",
                persistent_rfid_attendance := [("u1", ⟨"Ada", "08:00:00"⟩)],
                new_rfid_attendance := [("u2", ⟨"Bob", "08:05:00"⟩)] }

/-! # Theorems

First generic lemmas about the staging-dict operations and the state
transformers, then one theorem (plus witness or counterexample) per claim. -/

theorem mem_dictKeys {d : TapDict} {k : String} : k ∈ dictKeys d ↔ dictHas d k = true := by
  unfold dictKeys dictHas
  rw [List.any_eq_true]
  simp only [List.mem_map, beq_iff_eq]

theorem dictKeys_dictSet_of_has {d : TapDict} {k : String} (v : TapData)
    (h : dictHas d k = true) : dictKeys (dictSet d k v) = dictKeys d := by
  unfold dictSet dictKeys
  rw [if_pos h, List.map_map]
  apply List.map_congr_left
  intro kv _
  by_cases hk : (kv.1 == k) = true
  · simp [hk, (beq_iff_eq.mp hk).symm]
  · have hne : kv.1 ≠ k := by simpa using hk
    simp [hne]

theorem dictKeys_dictSet_of_not {d : TapDict} {k : String} (v : TapData)
    (h : dictHas d k = false) : dictKeys (dictSet d k v) = dictKeys d ++ [k] := by
  unfold dictSet dictKeys
  rw [if_neg (by simp [h]), List.map_append]
  rfl

theorem mem_dictKeys_dictSet {d : TapDict} {k k' : String} {v : TapData} :
    k' ∈ dictKeys (dictSet d k v) ↔ (k' ∈ dictKeys d ∨ k' = k) := by
  by_cases h : dictHas d k = true
  · rw [dictKeys_dictSet_of_has v h]
    constructor
    · exact Or.inl
    · rintro (hm | rfl)
      · exact hm
      · exact mem_dictKeys.mpr h
  · rw [dictKeys_dictSet_of_not v (by simpa using h)]
    simp

theorem mem_dictKeys_dictUpdate {e d : TapDict} {k : String} :
    k ∈ dictKeys (dictUpdate d e) ↔ (k ∈ dictKeys d ∨ k ∈ dictKeys e) := by
  induction e generalizing d with
  | nil => simp [dictUpdate, dictKeys]
  | cons kv e ih =>
    show k ∈ dictKeys (dictUpdate (dictSet d kv.1 kv.2) e) ↔ _
    rw [ih, mem_dictKeys_dictSet]
    simp [dictKeys]
    tauto

theorem nodup_dictKeys_dictSet {d : TapDict} {k : String} (v : TapData)
    (h : (dictKeys d).Nodup) : (dictKeys (dictSet d k v)).Nodup := by
  by_cases hh : dictHas d k = true
  · rwa [dictKeys_dictSet_of_has v hh]
  · rw [dictKeys_dictSet_of_not v (by simpa using hh)]
    simp [List.nodup_append, h]
    intro hmem
    exact hh (mem_dictKeys.mp hmem)

theorem nodup_dictKeys_dictUpdate {e d : TapDict} (h : (dictKeys d).Nodup) :
    (dictKeys (dictUpdate d e)).Nodup := by
  induction e generalizing d with
  | nil => exact h
  | cons kv e ih =>
    show (dictKeys (dictUpdate (dictSet d kv.1 kv.2) e)).Nodup
    exact ih (nodup_dictKeys_dictSet kv.2 h)

theorem countP_key_eq_one {d : TapDict} {uid : String} (hnd : (dictKeys d).Nodup)
    (hmem : uid ∈ dictKeys d) : d.countP (fun kv => kv.1 == uid) = 1 := by
  have hc : d.countP (fun kv => kv.1 == uid) = (dictKeys d).count uid := by
    rw [List.count_eq_countP]
    unfold dictKeys
    rw [List.countP_map]
    rfl
  rw [hc]
  exact List.count_eq_one_of_mem hnd hmem

/-- C8: enrolling with a token already bound to any identity (student or
lecturer table) fails on the duplicate-token pre-check with no state change,
for both enrollment paths; and a student enrollment that collected fewer than
2 successful face samples fails with the insufficient-samples rejection and
persists nothing (the state is returned unchanged: no templates, no row). -/
theorem c8_enrollment_rejections :
    (∀ (st : SysState) (rfid name : String) (samples : List (Option FaceDesc)),
        is_rfid_registered st rfid = true →
        register_student st rfid name samples = (st, RegisterResult.duplicateToken)) ∧
    (∀ (st : SysState) (rfid name cn cc : String),
        is_rfid_registered st rfid = true →
        register_lecturer st rfid name cn cc = (st, RegisterResult.duplicateToken)) ∧
    (∀ (st : SysState) (rfid name : String) (samples : List (Option FaceDesc)),
        is_rfid_registered st rfid = false →
        (samples.filterMap id).length < 2 →
        register_student st rfid name samples = (st, RegisterResult.insufficientSamples)) := by
  refine ⟨?_, ?_, ?_⟩
  · intro st rfid name samples h
    simp [register_student, h]
  · intro st rfid name cn cc h
    simp [register_lecturer, h]
  · intro st rfid name samples h h2
    simp [register_student, h, h2]

/-- Witness for C8 at concrete inputs: in `baseSt`, re-registering token `t1`
(a student's) or `LT` (the lecturer's) is rejected, and an enrollment with
only one successful sample is rejected, each leaving the state unchanged. -/
theorem c8_enrollment_rejections_witness :
    register_student baseSt "t1" "Eve" [some [9], some [8]] =
      (baseSt, RegisterResult.duplicateToken) ∧
    register_lecturer baseSt "LT" "Eve" "Logic" "CS102" =
      (baseSt, RegisterResult.duplicateToken) ∧
    register_student baseSt "t9" "Eve" [some [9], none, none] =
      (baseSt, RegisterResult.insufficientSamples) :=
  ⟨c8_enrollment_rejections.1 baseSt "t1" "Eve" [some [9], some [8]] (by decide),
   c8_enrollment_rejections.2.1 baseSt "LT" "Eve" "Logic" "CS102" (by decide),
   c8_enrollment_rejections.2.2 baseSt "t9" "Eve" [some [9], none, none]
     (by decide) (by decide)⟩

/-- C9 counterexample: the claim asserts that two distinct identities always
receive distinct ids.  In the run below a student and a lecturer — two
distinct identities, with distinct tokens, in different roles — enroll under
the same display name and both succeed with the very same id
`generate_unique_id "Alice Smith"`: the id is derived from the display name
alone, so the claim is false. -/
theorem c9_counterexample :
    (register_student initState "t1" "Alice Smith" [some [1], some [2]]).2 =
      RegisterResult.ok (generate_unique_id "Alice Smith") ∧
    (register_lecturer (register_student initState "t1" "Alice Smith"
        [some [1], some [2]]).1 "t2" "Alice Smith" "Algorithms" "CS101").2 =
      RegisterResult.ok (generate_unique_id "Alice Smith") := by
  exact ⟨rfl, rfl⟩

/-- C9 amended: identity identifiers are derived deterministically from the
display name alone (`sha256(name)[:16]`): every successful enrollment, for
either role, stores `generate_unique_id name` as the id, so two identities
that enter the same display name — in particular an attendee and a session
owner — receive the same id, not distinct ids. -/
theorem c9_amended :
    (∀ (st : SysState) (rfid name : String) (samples : List (Option FaceDesc))
        (st' : SysState) (uid : String),
        register_student st rfid name samples = (st', RegisterResult.ok uid) →
        uid = generate_unique_id name) ∧
    (∀ (st : SysState) (rfid name cn cc : String) (st' : SysState) (uid : String),
        register_lecturer st rfid name cn cc = (st', RegisterResult.ok uid) →
        uid = generate_unique_id name) ∧
    (∀ (st1 : SysState) (rfid1 name : String) (samples : List (Option FaceDesc))
        (st1' : SysState) (uid1 : String) (st2 : SysState) (rfid2 cn cc : String)
        (st2' : SysState) (uid2 : String),
        register_student st1 rfid1 name samples = (st1', RegisterResult.ok uid1) →
        register_lecturer st2 rfid2 name cn cc = (st2', RegisterResult.ok uid2) →
        uid1 = uid2) := by
  have hs : ∀ (st : SysState) (rfid name : String) (samples : List (Option FaceDesc))
      (st' : SysState) (uid : String),
      register_student st rfid name samples = (st', RegisterResult.ok uid) →
      uid = generate_unique_id name := by
    intro st rfid name samples st' uid h
    simp only [register_student] at h
    split at h
    · simp at h
    · split at h
      · simp at h
      · split at h
        · simp at h
        · simp only [Prod.mk.injEq, RegisterResult.ok.injEq] at h
          exact h.2.symm
  have hl : ∀ (st : SysState) (rfid name cn cc : String) (st' : SysState) (uid : String),
      register_lecturer st rfid name cn cc = (st', RegisterResult.ok uid) →
      uid = generate_unique_id name := by
    intro st rfid name cn cc st' uid h
    simp only [register_lecturer] at h
    split at h
    · simp at h
    · split at h
      · simp at h
      · simp only [Prod.mk.injEq, RegisterResult.ok.injEq] at h
        exact h.2.symm
  refine ⟨hs, hl, ?_⟩
  intro st1 rfid1 name samples st1' uid1 st2 rfid2 cn cc st2' uid2 h1 h2
  rw [hs st1 rfid1 name samples st1' uid1 h1, hl st2 rfid2 name cn cc st2' uid2 h2]

/-- Witness for C9 amended, applying it to the successful enrollments of a
student and a lecturer both named `Alice`: the two stored ids coincide. -/
theorem c9_amended_witness :
    register_student initState "t1" "Alice" [some [1], some [2]] =
      ((register_student initState "t1" "Alice" [some [1], some [2]]).1,
       RegisterResult.ok (generate_unique_id "Alice")) ∧
    register_lecturer initState "t2" "Alice" "Logic" "CS102" =
      ((register_lecturer initState "t2" "Alice" "Logic" "CS102").1,
       RegisterResult.ok (generate_unique_id "Alice")) ∧
    generate_unique_id "Alice" = generate_unique_id "Alice" :=
  ⟨rfl, rfl,
   c9_amended.2.2 initState "t1" "Alice" [some [1], some [2]]
     (register_student initState "t1" "Alice" [some [1], some [2]]).1
     (generate_unique_id "Alice") initState "t2" "Logic" "CS102"
     (register_lecturer initState "t2" "Alice" "Logic" "CS102").1
     (generate_unique_id "Alice") rfl rfl⟩

/-- C10: when some enrolled student's stored id equals the id derived from
the entered name, a later `register_student` with that name fails with the
integrity-constraint rejection — even with a fresh token and enough samples —
and persists nothing (the state is returned unchanged). -/
theorem c10_same_name_enrollment_fails (st : SysState) (rfid name : String)
    (samples : List (Option FaceDesc))
    (hname : st.students.any (fun r => r.unique_id == generate_unique_id name) = true)
    (hrfid : is_rfid_registered st rfid = false)
    (hsamples : 2 ≤ (samples.filterMap id).length) :
    register_student st rfid name samples = (st, RegisterResult.integrityError) := by
  have h2 : ¬((samples.filterMap id).length < 2) := by omega
  simp [register_student, hrfid, h2, hname]

/-- Witness for C10: with `Alice` already enrolled, enrolling the name `Alice`
again with the fresh token `t2` and two good samples fails with the
integrity-constraint rejection and changes nothing. -/
theorem c10_same_name_enrollment_fails_witness :
    register_student dupNameSt "t2" "Alice" [some [7], some [8]] =
      (dupNameSt, RegisterResult.integrityError) :=
  c10_same_name_enrollment_fails dupNameSt "t2" "Alice" [some [7], some [8]]
    (by simp [dupNameSt]) (by decide) (by decide)

theorem processTap_unregistered {st : SysState} {e : TapInput}
    (hnl : lookupLecturer st e.rfid = none) (hns : lookupStudent st e.rfid = none) :
    processTap st e = (st, TapOutcome.unregistered) := by
  simp [processTap, hnl, hns]

theorem processTap_duplicateConfirmed {st : SysState} {e : TapInput} {srow : StudentRow}
    (hnl : lookupLecturer st e.rfid = none) (hs : lookupStudent st e.rfid = some srow)
    (hp : dictHas st.persistent_rfid_attendance srow.unique_id = true) :
    processTap st e = (st, TapOutcome.duplicateConfirmed srow.unique_id) := by
  simp [processTap, hnl, hs, hp]

theorem processTap_duplicateInSession {st : SysState} {e : TapInput} {srow : StudentRow}
    (hnl : lookupLecturer st e.rfid = none) (hs : lookupStudent st e.rfid = some srow)
    (hp : dictHas st.persistent_rfid_attendance srow.unique_id = false)
    (hn : dictHas st.new_rfid_attendance srow.unique_id = true) :
    processTap st e = (st, TapOutcome.duplicateInSession srow.unique_id) := by
  simp [processTap, hnl, hs, hp, hn]

theorem processTap_newCheckIn {st : SysState} {e : TapInput} {srow : StudentRow}
    (hnl : lookupLecturer st e.rfid = none) (hs : lookupStudent st e.rfid = some srow)
    (hp : dictHas st.persistent_rfid_attendance srow.unique_id = false)
    (hn : dictHas st.new_rfid_attendance srow.unique_id = false) :
    processTap st e =
      ({ st with new_rfid_attendance := st.new_rfid_attendance ++
           [(srow.unique_id, ⟨srow.name, e.timeStr⟩)] },
       TapOutcome.newCheckIn srow.unique_id) := by
  simp [processTap, hnl, hs, hp, hn]

theorem processTap_aborted {st : SysState} {e : TapInput} {lec : LecturerRow}
    (hlec : lookupLecturer st e.rfid = some lec) (hok : e.sessionOk = false) :
    processTap st e =
      ({ st with errlog := st.errlog ++ ["RFID attendance error"] }, TapOutcome.aborted) := by
  simp [processTap, hlec, hok]

theorem processTap_owner {st : SysState} {e : TapInput} {lec : LecturerRow}
    (hlec : lookupLecturer st e.rfid = some lec) (hok : e.sessionOk = true) :
    processTap st e =
      ({ verifyItems e.orc (mkSessionId lec.course_code e.timeStr)
           { st with
             remote_sessions := remoteSessionSet st.remote_sessions
               ⟨mkSessionId lec.course_code e.timeStr, lec.course_name, lec.course_code,
                lec.name, e.rfid, e.timeStr, "active"⟩,
             current_session := some (mkSessionId lec.course_code e.timeStr),
             persistent_rfid_attendance :=
               dictUpdate st.persistent_rfid_attendance st.new_rfid_attendance }
           (dictUpdate st.persistent_rfid_attendance st.new_rfid_attendance)
         with new_rfid_attendance := [] },
       TapOutcome.sessionStarted (mkSessionId lec.course_code e.timeStr)) := by
  simp [processTap, hlec, hok, verify_attendance]

theorem localEq_refl (st : SysState) : LocalEq st st :=
  ⟨rfl, rfl, rfl, rfl, rfl, rfl, rfl, rfl⟩

theorem localEq_trans {a b c : SysState} (h1 : LocalEq a b) (h2 : LocalEq b c) : LocalEq a c := by
  obtain ⟨x1, x2, x3, x4, x5, x6, x7, x8⟩ := h1
  obtain ⟨y1, y2, y3, y4, y5, y6, y7, y8⟩ := h2
  exact ⟨x1.trans y1, x2.trans y2, x3.trans y3, x4.trans y4, x5.trans y5,
         x6.trans y6, x7.trans y7, x8.trans y8⟩

theorem log_fb_localEq (st : SysState) (orc : VerifyOracles) (u n s : String) :
    LocalEq (log_attendance_to_firebase st orc u n s) st := by
  unfold log_attendance_to_firebase
  split
  · exact ⟨rfl, rfl, rfl, rfl, rfl, rfl, rfl, rfl⟩
  · split
    · exact ⟨rfl, rfl, rfl, rfl, rfl, rfl, rfl, rfl⟩
    · split
      · exact ⟨rfl, rfl, rfl, rfl, rfl, rfl, rfl, rfl⟩
      · exact ⟨rfl, rfl, rfl, rfl, rfl, rfl, rfl, rfl⟩

theorem log_fb_errlog {st : SysState} {orc : VerifyOracles} {u : String} (n s : String)
    (hrow : (st.students.find? (fun r => r.unique_id == u)).isSome)
    (hcs : st.current_session.isSome)
    (hrem : orc.remoteOk u = true) :
    (log_attendance_to_firebase st orc u n s).errlog = st.errlog := by
  obtain ⟨row, hr⟩ := Option.isSome_iff_exists.mp hrow
  obtain ⟨sid, hc⟩ := Option.isSome_iff_exists.mp hcs
  simp [log_attendance_to_firebase, hr, hc, hrem]

theorem verifyItems_step_none {orc : VerifyOracles} {sid : String} {st : SysState}
    {uid : String} {data : TapData} {rest : TapDict}
    (h : st.students.find? (fun r => r.unique_id == uid) = none) :
    verifyItems orc sid st ((uid, data) :: rest) = verifyItems orc sid st rest := by
  simp [verifyItems, h]

theorem verifyItems_step_fail {orc : VerifyOracles} {sid : String} {st : SysState}
    {uid : String} {data : TapData} {rest : TapDict} {row : StudentRow}
    (h : st.students.find? (fun r => r.unique_id == uid) = some row)
    (hl : orc.localOk uid = false) :
    verifyItems orc sid st ((uid, data) :: rest) =
      { st with verify_trace := st.verify_trace ++ [(sid, uid)],
                errlog := st.errlog ++ ["Face recognition attendance error"] } := by
  simp [verifyItems, h, hl]

theorem verifyItems_step_ok {orc : VerifyOracles} {sid : String} {st : SysState}
    {uid : String} {data : TapData} {rest : TapDict} {row : StudentRow}
    (h : st.students.find? (fun r => r.unique_id == uid) = some row)
    (hl : orc.localOk uid = true) :
    verifyItems orc sid st ((uid, data) :: rest) =
      verifyItems orc sid
        (log_attendance_to_firebase
          { st with verify_trace := st.verify_trace ++ [(sid, uid)],
                    attendance_log := st.attendance_log ++ [mkVerifyRec orc sid (uid, data)] }
          orc uid data.name (if orc.face uid then "present" else "partial"))
        rest := by
  simp [verifyItems, h, hl, mkVerifyRec]

theorem verifyItems_fields (orc : VerifyOracles) (sid : String) (d : TapDict) :
    ∀ st : SysState,
    (verifyItems orc sid st d).students = st.students ∧
    (verifyItems orc sid st d).lecturers = st.lecturers ∧
    (verifyItems orc sid st d).current_session = st.current_session ∧
    (verifyItems orc sid st d).temp_attendance = st.temp_attendance ∧
    (verifyItems orc sid st d).persistent_rfid_attendance = st.persistent_rfid_attendance ∧
    (verifyItems orc sid st d).new_rfid_attendance = st.new_rfid_attendance := by
  induction d with
  | nil => intro st; exact ⟨rfl, rfl, rfl, rfl, rfl, rfl⟩
  | cons kv rest ih =>
    intro st
    obtain ⟨uid, data⟩ := kv
    cases h : st.students.find? (fun r => r.unique_id == uid) with
    | none => rw [verifyItems_step_none h]; exact ih st
    | some row =>
      cases hl : orc.localOk uid with
      | false =>
        rw [verifyItems_step_fail h hl]
        exact ⟨rfl, rfl, rfl, rfl, rfl, rfl⟩
      | true =>
        rw [verifyItems_step_ok h hl]
        have hfb := log_fb_localEq
          { st with verify_trace := st.verify_trace ++ [(sid, uid)],
                    attendance_log := st.attendance_log ++ [mkVerifyRec orc sid (uid, data)] }
          orc uid data.name (if orc.face uid then "present" else "partial")
        have hih := ih (log_attendance_to_firebase
          { st with verify_trace := st.verify_trace ++ [(sid, uid)],
                    attendance_log := st.attendance_log ++ [mkVerifyRec orc sid (uid, data)] }
          orc uid data.name (if orc.face uid then "present" else "partial"))
        refine ⟨?_, ?_, ?_, ?_, ?_, ?_⟩
        · rw [hih.1, hfb.1]
        · rw [hih.2.1, hfb.2.1]
        · rw [hih.2.2.1, hfb.2.2.2.1]
        · rw [hih.2.2.2.1, hfb.2.2.2.2.1]
        · rw [hih.2.2.2.2.1, hfb.2.2.2.2.2.1]
        · rw [hih.2.2.2.2.2, hfb.2.2.2.2.2.2.1]

theorem verifyItems_all_ok (orc : VerifyOracles) (sid : String) (d : TapDict) :
    ∀ st : SysState,
    (∀ kv ∈ d, (st.students.find? (fun r => r.unique_id == kv.1)).isSome) →
    (∀ kv ∈ d, orc.localOk kv.1 = true) →
    (verifyItems orc sid st d).attendance_log =
      st.attendance_log ++ d.map (mkVerifyRec orc sid) ∧
    (verifyItems orc sid st d).verify_trace =
      st.verify_trace ++ d.map (fun kv => (sid, kv.1)) := by
  induction d with
  | nil => intro st _ _; simp [verifyItems]
  | cons kv rest ih =>
    intro st hrows hlocal
    obtain ⟨uid, data⟩ := kv
    obtain ⟨row, h⟩ := Option.isSome_iff_exists.mp (hrows (uid, data) (List.mem_cons_self _ _))
    have hl : orc.localOk uid = true := hlocal (uid, data) (List.mem_cons_self _ _)
    rw [verifyItems_step_ok h hl]
    set stMid := { st with verify_trace := st.verify_trace ++ [(sid, uid)],
                           attendance_log := st.attendance_log ++ [mkVerifyRec orc sid (uid, data)] }
    set stFb := log_attendance_to_firebase stMid orc uid data.name
      (if orc.face uid then "present" else "partial") with hstFb
    have hfb := log_fb_localEq stMid orc uid data.name
      (if orc.face uid then "present" else "partial")
    have hrows' : ∀ kv ∈ rest, (stFb.students.find? (fun r => r.unique_id == kv.1)).isSome := by
      intro kv hm
      have : stFb.students = st.students := hfb.1
      rw [this]
      exact hrows kv (List.mem_cons_of_mem _ hm)
    have hlocal' : ∀ kv ∈ rest, orc.localOk kv.1 = true := fun kv hm =>
      hlocal kv (List.mem_cons_of_mem _ hm)
    have hih := ih stFb hrows' hlocal'
    constructor
    · rw [hih.1, hfb.2.2.1]
      show st.attendance_log ++ [mkVerifyRec orc sid (uid, data)] ++ _ = _
      simp
    · rw [hih.2, hfb.2.2.2.2.2.2.2]
      show st.verify_trace ++ [(sid, uid)] ++ _ = _
      simp

theorem localEq_symm {a b : SysState} (h : LocalEq a b) : LocalEq b a := by
  obtain ⟨x1, x2, x3, x4, x5, x6, x7, x8⟩ := h
  exact ⟨x1.symm, x2.symm, x3.symm, x4.symm, x5.symm, x6.symm, x7.symm, x8.symm⟩

theorem verifyItems_fail (orc : VerifyOracles) (sid u : String) (v : TapData) (d₂ : TapDict) :
    ∀ (d₁ : TapDict) (st : SysState),
    (∀ kv ∈ d₁, (st.students.find? (fun r => r.unique_id == kv.1)).isSome) →
    (∀ kv ∈ d₁, orc.localOk kv.1 = true) →
    (∀ kv ∈ d₁, orc.remoteOk kv.1 = true) →
    st.current_session.isSome →
    (st.students.find? (fun r => r.unique_id == u)).isSome →
    orc.localOk u = false →
    (verifyItems orc sid st (d₁ ++ (u, v) :: d₂)).attendance_log =
      st.attendance_log ++ d₁.map (mkVerifyRec orc sid) ∧
    (verifyItems orc sid st (d₁ ++ (u, v) :: d₂)).errlog =
      st.errlog ++ ["Face recognition attendance error"] := by
  intro d₁
  induction d₁ with
  | nil =>
    intro st _ _ _ _ hrow hfail
    obtain ⟨row, h⟩ := Option.isSome_iff_exists.mp hrow
    rw [List.nil_append, verifyItems_step_fail h hfail]
    simp
  | cons kv rest ih =>
    intro st hrows hlocal hremote hcs hrow hfail
    obtain ⟨uid, data⟩ := kv
    obtain ⟨row, h⟩ := Option.isSome_iff_exists.mp (hrows (uid, data) (List.mem_cons_self _ _))
    have hl : orc.localOk uid = true := hlocal (uid, data) (List.mem_cons_self _ _)
    rw [List.cons_append, verifyItems_step_ok h hl]
    set stMid := { st with verify_trace := st.verify_trace ++ [(sid, uid)],
                           attendance_log := st.attendance_log ++ [mkVerifyRec orc sid (uid, data)] }
      with hstMid
    set stFb := log_attendance_to_firebase stMid orc uid data.name
      (if orc.face uid then "present" else "partial") with hstFb
    have hfb := log_fb_localEq stMid orc uid data.name
      (if orc.face uid then "present" else "partial")
    have hstu : stFb.students = st.students := hfb.1
    have hses : stFb.current_session = st.current_session := hfb.2.2.2.1
    have hlog : stFb.attendance_log = st.attendance_log ++ [mkVerifyRec orc sid (uid, data)] :=
      hfb.2.2.1
    have herr : stFb.errlog = st.errlog := by
      rw [hstFb]
      refine log_fb_errlog data.name _ ?_ ?_ (hremote (uid, data) (List.mem_cons_self _ _))
      · show (stMid.students.find? (fun r => r.unique_id == uid)).isSome
        exact Option.isSome_iff_exists.mpr ⟨row, h⟩
      · exact hcs
    have hih := ih stFb
      (fun kv hm => by rw [hstu]; exact hrows kv (List.mem_cons_of_mem _ hm))
      (fun kv hm => hlocal kv (List.mem_cons_of_mem _ hm))
      (fun kv hm => hremote kv (List.mem_cons_of_mem _ hm))
      (by rw [hses]; exact hcs)
      (by rw [hstu]; exact hrow)
      hfail
    constructor
    · rw [hih.1, hlog]; simp
    · rw [hih.2, herr]

theorem verifyItems_localEq (sid : String) (d : TapDict) :
    ∀ (st1 st2 : SysState) (orc1 orc2 : VerifyOracles),
    LocalEq st1 st2 → OrcLocalEq orc1 orc2 →
    LocalEq (verifyItems orc1 sid st1 d) (verifyItems orc2 sid st2 d) := by
  induction d with
  | nil =>
    intro st1 st2 orc1 orc2 h _
    simpa only [verifyItems] using h
  | cons kv rest ih =>
    intro st1 st2 orc1 orc2 h horc
    obtain ⟨uid, data⟩ := kv
    obtain ⟨hstu, hlec, hlog, hses, htmp, hper, hnew, htr⟩ := h
    obtain ⟨hface, hlocal, hvdate, hvtime⟩ := horc
    cases hf : st1.students.find? (fun r => r.unique_id == uid) with
    | none =>
      have hf2 : st2.students.find? (fun r => r.unique_id == uid) = none := by
        rw [← hstu]; exact hf
      rw [verifyItems_step_none hf, verifyItems_step_none hf2]
      exact ih st1 st2 orc1 orc2 ⟨hstu, hlec, hlog, hses, htmp, hper, hnew, htr⟩
        ⟨hface, hlocal, hvdate, hvtime⟩
    | some row =>
      have hf2 : st2.students.find? (fun r => r.unique_id == uid) = some row := by
        rw [← hstu]; exact hf
      have hlocEq : orc2.localOk uid = orc1.localOk uid := by rw [hlocal]
      have hrec : mkVerifyRec orc1 sid (uid, data) = mkVerifyRec orc2 sid (uid, data) := by
        unfold mkVerifyRec
        rw [hface, hvdate, hvtime]
      cases hl : orc1.localOk uid with
      | false =>
        rw [verifyItems_step_fail hf hl, verifyItems_step_fail hf2 (hlocEq.trans hl)]
        exact ⟨hstu, hlec, hlog, hses, htmp, hper, hnew, by rw [htr]⟩
      | true =>
        rw [verifyItems_step_ok hf hl, verifyItems_step_ok hf2 (hlocEq.trans hl)]
        have hmid : LocalEq
            { st1 with verify_trace := st1.verify_trace ++ [(sid, uid)],
                       attendance_log := st1.attendance_log ++ [mkVerifyRec orc1 sid (uid, data)] }
            { st2 with verify_trace := st2.verify_trace ++ [(sid, uid)],
                       attendance_log := st2.attendance_log ++ [mkVerifyRec orc2 sid (uid, data)] } :=
          ⟨hstu, hlec, by rw [hlog, hrec], hses, htmp, hper, hnew, by rw [htr]⟩
        refine ih _ _ orc1 orc2 ?_ ⟨hface, hlocal, hvdate, hvtime⟩
        exact localEq_trans (log_fb_localEq _ _ _ _ _)
          (localEq_trans hmid (localEq_symm (log_fb_localEq _ _ _ _ _)))

theorem processTap_localEq {st1 st2 : SysState} {e1 e2 : TapInput}
    (h : LocalEq st1 st2) (he : SameButRemote e1 e2) :
    LocalEq (processTap st1 e1).1 (processTap st2 e2).1 ∧
    (processTap st1 e1).2 = (processTap st2 e2).2 := by
  obtain ⟨hstu, hlec, hlog, hses, htmp, hper, hnew, htr⟩ := h
  obtain ⟨hrfid, htime, hdate, hok, horc⟩ := he
  have hll : lookupLecturer st2 e2.rfid = lookupLecturer st1 e1.rfid := by
    unfold lookupLecturer; rw [hlec, hrfid]
  cases hl : lookupLecturer st1 e1.rfid with
  | some lec =>
    cases hsok : e1.sessionOk with
    | false =>
      rw [processTap_aborted hl hsok,
          processTap_aborted (hll.trans hl) (by rw [← hok]; exact hsok)]
      exact ⟨⟨hstu, hlec, hlog, hses, htmp, hper, hnew, htr⟩, rfl⟩
    | true =>
      rw [processTap_owner hl hsok,
          processTap_owner (hll.trans hl) (by rw [← hok]; exact hsok)]
      have hsid2 : mkSessionId lec.course_code e2.timeStr =
          mkSessionId lec.course_code e1.timeStr := by rw [htime]
      have hdict2 : dictUpdate st2.persistent_rfid_attendance st2.new_rfid_attendance =
          dictUpdate st1.persistent_rfid_attendance st1.new_rfid_attendance := by
        rw [hper, hnew]
      rw [hsid2, hdict2]
      have hpre : LocalEq
          { st1 with
            remote_sessions := remoteSessionSet st1.remote_sessions
              ⟨mkSessionId lec.course_code e1.timeStr, lec.course_name, lec.course_code,
               lec.name, e1.rfid, e1.timeStr, "active"⟩,
            current_session := some (mkSessionId lec.course_code e1.timeStr),
            persistent_rfid_attendance :=
              dictUpdate st1.persistent_rfid_attendance st1.new_rfid_attendance }
          { st2 with
            remote_sessions := remoteSessionSet st2.remote_sessions
              ⟨mkSessionId lec.course_code e1.timeStr, lec.course_name, lec.course_code,
               lec.name, e2.rfid, e2.timeStr, "active"⟩,
            current_session := some (mkSessionId lec.course_code e1.timeStr),
            persistent_rfid_attendance :=
              dictUpdate st1.persistent_rfid_attendance st1.new_rfid_attendance } :=
        ⟨hstu, hlec, hlog, rfl, htmp, rfl, hnew, htr⟩
      have hv := verifyItems_localEq (mkSessionId lec.course_code e1.timeStr)
        (dictUpdate st1.persistent_rfid_attendance st1.new_rfid_attendance)
        _ _ e1.orc e2.orc hpre horc
      obtain ⟨v1, v2, v3, v4, v5, v6, v7, v8⟩ := hv
      exact ⟨⟨v1, v2, v3, v4, v5, v6, rfl, v8⟩, rfl⟩
  | none =>
    have hls : lookupStudent st2 e2.rfid = lookupStudent st1 e1.rfid := by
      unfold lookupStudent; rw [hstu, hrfid]
    cases hs : lookupStudent st1 e1.rfid with
    | none =>
      rw [processTap_unregistered hl hs,
          processTap_unregistered (hll.trans hl) (hls.trans hs)]
      exact ⟨⟨hstu, hlec, hlog, hses, htmp, hper, hnew, htr⟩, rfl⟩
    | some srow =>
      cases hp : dictHas st1.persistent_rfid_attendance srow.unique_id with
      | true =>
        rw [processTap_duplicateConfirmed hl hs hp,
            processTap_duplicateConfirmed (hll.trans hl) (hls.trans hs)
              (by rw [← hper]; exact hp)]
        exact ⟨⟨hstu, hlec, hlog, hses, htmp, hper, hnew, htr⟩, rfl⟩
      | false =>
        cases hn : dictHas st1.new_rfid_attendance srow.unique_id with
        | true =>
          rw [processTap_duplicateInSession hl hs hp hn,
              processTap_duplicateInSession (hll.trans hl) (hls.trans hs)
                (by rw [← hper]; exact hp) (by rw [← hnew]; exact hn)]
          exact ⟨⟨hstu, hlec, hlog, hses, htmp, hper, hnew, htr⟩, rfl⟩
        | false =>
          rw [processTap_newCheckIn hl hs hp hn,
              processTap_newCheckIn (hll.trans hl) (hls.trans hs)
                (by rw [← hper]; exact hp) (by rw [← hnew]; exact hn)]
          exact ⟨⟨hstu, hlec, hlog, hses, htmp, by rw [hper], by rw [hnew, htime], htr⟩, rfl⟩

theorem runTaps_localEq {es1 es2 : List TapInput} (hf : List.Forall₂ SameButRemote es1 es2) :
    ∀ {st1 st2 : SysState}, LocalEq st1 st2 →
    LocalEq (runTaps st1 es1).1 (runTaps st2 es2).1 ∧
    (runTaps st1 es1).2 = (runTaps st2 es2).2 := by
  induction hf with
  | nil =>
    intro st1 st2 h
    exact ⟨h, rfl⟩
  | @cons e1 e2 es1 es2 he _ ih =>
    intro st1 st2 h
    have hp := processTap_localEq h he
    by_cases hab : (processTap st1 e1).2 = TapOutcome.aborted
    · have hab2 : (processTap st2 e2).2 = TapOutcome.aborted := by rw [← hp.2]; exact hab
      simp only [runTaps, hab, hab2, if_pos]
      exact ⟨hp.1, trivial⟩
    · have hab2 : ¬((processTap st2 e2).2 = TapOutcome.aborted) := by rw [← hp.2]; exact hab
      have hih := ih hp.1
      simp only [runTaps, if_neg hab, if_neg hab2]
      exact ⟨hih.1, by rw [hih.2, hp.2]⟩

theorem register_student_staging (st : SysState) (rfid name : String)
    (samples : List (Option FaceDesc)) :
    (register_student st rfid name samples).1.persistent_rfid_attendance =
      st.persistent_rfid_attendance ∧
    (register_student st rfid name samples).1.new_rfid_attendance =
      st.new_rfid_attendance := by
  simp only [register_student]
  split
  · exact ⟨rfl, rfl⟩
  · split
    · exact ⟨rfl, rfl⟩
    · split
      · exact ⟨rfl, rfl⟩
      · exact ⟨rfl, rfl⟩

theorem register_lecturer_staging (st : SysState) (rfid name cn cc : String) :
    (register_lecturer st rfid name cn cc).1.persistent_rfid_attendance =
      st.persistent_rfid_attendance ∧
    (register_lecturer st rfid name cn cc).1.new_rfid_attendance =
      st.new_rfid_attendance := by
  simp only [register_lecturer]
  split
  · exact ⟨rfl, rfl⟩
  · split
    · exact ⟨rfl, rfl⟩
    · exact ⟨rfl, rfl⟩

theorem stagingInv_congr {st st' : SysState}
    (hp : st'.persistent_rfid_attendance = st.persistent_rfid_attendance)
    (hn : st'.new_rfid_attendance = st.new_rfid_attendance)
    (h : StagingInv st) : StagingInv st' := by
  obtain ⟨h1, h2, h3⟩ := h
  refine ⟨?_, ?_, ?_⟩
  · rw [show dictKeys st'.persistent_rfid_attendance =
        dictKeys st.persistent_rfid_attendance from by rw [hp]]
    exact h1
  · rw [show dictKeys st'.new_rfid_attendance =
        dictKeys st.new_rfid_attendance from by rw [hn]]
    exact h2
  · intro k hk
    rw [show dictKeys st'.new_rfid_attendance =
        dictKeys st.new_rfid_attendance from by rw [hn]] at hk
    rw [show dictKeys st'.persistent_rfid_attendance =
        dictKeys st.persistent_rfid_attendance from by rw [hp]]
    exact h3 k hk

theorem stagingInv_processTap {st : SysState} (e : TapInput) (h : StagingInv st) :
    StagingInv (processTap st e).1 := by
  obtain ⟨h1, h2, h3⟩ := h
  cases hl : lookupLecturer st e.rfid with
  | some lec =>
    cases hok : e.sessionOk with
    | false => rw [processTap_aborted hl hok]; exact ⟨h1, h2, h3⟩
    | true =>
      rw [processTap_owner hl hok]
      have hfld := verifyItems_fields e.orc (mkSessionId lec.course_code e.timeStr)
        (dictUpdate st.persistent_rfid_attendance st.new_rfid_attendance)
        { st with
          remote_sessions := remoteSessionSet st.remote_sessions
            ⟨mkSessionId lec.course_code e.timeStr, lec.course_name, lec.course_code,
             lec.name, e.rfid, e.timeStr, "active"⟩,
          current_session := some (mkSessionId lec.course_code e.timeStr),
          persistent_rfid_attendance :=
            dictUpdate st.persistent_rfid_attendance st.new_rfid_attendance }
      refine ⟨?_, by exact List.nodup_nil, by intro k hk; cases hk⟩
      have hpp : (verifyItems e.orc (mkSessionId lec.course_code e.timeStr)
          { st with
            remote_sessions := remoteSessionSet st.remote_sessions
              ⟨mkSessionId lec.course_code e.timeStr, lec.course_name, lec.course_code,
               lec.name, e.rfid, e.timeStr, "active"⟩,
            current_session := some (mkSessionId lec.course_code e.timeStr),
            persistent_rfid_attendance :=
              dictUpdate st.persistent_rfid_attendance st.new_rfid_attendance }
          (dictUpdate st.persistent_rfid_attendance
            st.new_rfid_attendance)).persistent_rfid_attendance =
          dictUpdate st.persistent_rfid_attendance st.new_rfid_attendance :=
        hfld.2.2.2.2.1
      show (dictKeys _).Nodup
      rw [show (({ verifyItems e.orc (mkSessionId lec.course_code e.timeStr)
          { st with
            remote_sessions := remoteSessionSet st.remote_sessions
              ⟨mkSessionId lec.course_code e.timeStr, lec.course_name, lec.course_code,
               lec.name, e.rfid, e.timeStr, "active"⟩,
            current_session := some (mkSessionId lec.course_code e.timeStr),
            persistent_rfid_attendance :=
              dictUpdate st.persistent_rfid_attendance st.new_rfid_attendance }
          (dictUpdate st.persistent_rfid_attendance st.new_rfid_attendance)
        with new_rfid_attendance := [] } : SysState).persistent_rfid_attendance) =
          dictUpdate st.persistent_rfid_attendance st.new_rfid_attendance from hpp]
      exact nodup_dictKeys_dictUpdate h1
  | none =>
    cases hs : lookupStudent st e.rfid with
    | none => rw [processTap_unregistered hl hs]; exact ⟨h1, h2, h3⟩
    | some srow =>
      cases hp : dictHas st.persistent_rfid_attendance srow.unique_id with
      | true => rw [processTap_duplicateConfirmed hl hs hp]; exact ⟨h1, h2, h3⟩
      | false =>
        cases hn : dictHas st.new_rfid_attendance srow.unique_id with
        | true => rw [processTap_duplicateInSession hl hs hp hn]; exact ⟨h1, h2, h3⟩
        | false =>
          rw [processTap_newCheckIn hl hs hp hn]
          have hnm : srow.unique_id ∉ dictKeys st.new_rfid_attendance := by
            intro hm
            rw [mem_dictKeys] at hm
            simp [hm] at hn
          have hpm : srow.unique_id ∉ dictKeys st.persistent_rfid_attendance := by
            intro hm
            rw [mem_dictKeys] at hm
            simp [hm] at hp
          have hkeys : dictKeys (st.new_rfid_attendance ++
              [(srow.unique_id, ⟨srow.name, e.timeStr⟩)]) =
              dictKeys st.new_rfid_attendance ++ [srow.unique_id] := by
            simp [dictKeys]
          refine ⟨h1, ?_, ?_⟩
          · show (dictKeys (st.new_rfid_attendance ++
              [(srow.unique_id, ⟨srow.name, e.timeStr⟩)])).Nodup
            rw [hkeys, List.nodup_append]
            refine ⟨h2, List.nodup_singleton _, ?_⟩
            intro a ha hb
            rw [List.mem_singleton] at hb
            subst hb
            exact hnm ha
          · intro k hk
            rw [show dictKeys (({ st with new_rfid_attendance := st.new_rfid_attendance ++
                [(srow.unique_id, ⟨srow.name, e.timeStr⟩)] } : SysState).new_rfid_attendance) =
                dictKeys st.new_rfid_attendance ++ [srow.unique_id] from hkeys] at hk
            rcases List.mem_append.mp hk with hk | hk
            · exact h3 k hk
            · rw [List.mem_singleton] at hk
              subst hk
              exact hpm

theorem stagingInv_applyOp {st : SysState} (op : Op) (h : StagingInv st) :
    StagingInv (applyOp st op) := by
  cases op with
  | regStudent rfid name samples =>
    exact stagingInv_congr (register_student_staging st rfid name samples).1
      (register_student_staging st rfid name samples).2 h
  | regLecturer rfid name cn cc =>
    exact stagingInv_congr (register_lecturer_staging st rfid name cn cc).1
      (register_lecturer_staging st rfid name cn cc).2 h
  | tap e => exact stagingInv_processTap e h
  | interrupt => exact stagingInv_congr rfl rfl h

theorem stagingInv_runOps (ops : List Op) : StagingInv (runOps ops) := by
  have hfold : ∀ (l : List Op) (st : SysState), StagingInv st → StagingInv (l.foldl applyOp st) := by
    intro l
    induction l with
    | nil => intro st h; exact h
    | cons op l ih => intro st h; exact ih _ (stagingInv_applyOp op h)
  exact hfold ops initState ⟨List.nodup_nil, List.nodup_nil, by intro k hk; cases hk⟩

/-- C1: rollover is total.  After an owner (lecturer) tap whose session
metadata write succeeds, on a well-formed state in which every staged identity
has a student row, the local insert succeeds for every pending identity, and
the freshly derived session id does not already occur in the log, every
identity that was in the Confirmed (persistent) set or in the New set before
the rollover has exactly one AttendanceRecord in the local store for the new
session id, and every record of that session id carries status `present` or
`partial`. -/
theorem c1_rollover_total (st : SysState) (e : TapInput) (lec : LecturerRow) (uid : String)
    (hlec : lookupLecturer st e.rfid = some lec)
    (hok : e.sessionOk = true)
    (hnodp : (dictKeys st.persistent_rfid_attendance).Nodup)
    (hrows : ∀ kv ∈ dictUpdate st.persistent_rfid_attendance st.new_rfid_attendance,
      (st.students.find? (fun r => r.unique_id == kv.1)).isSome)
    (hlocal : ∀ kv ∈ dictUpdate st.persistent_rfid_attendance st.new_rfid_attendance,
      e.orc.localOk kv.1 = true)
    (hfresh : ∀ r ∈ st.attendance_log, r.session_id ≠ mkSessionId lec.course_code e.timeStr)
    (hmem : uid ∈ dictKeys st.persistent_rfid_attendance ∨
      uid ∈ dictKeys st.new_rfid_attendance) :
    recordCount (processTap st e).1.attendance_log uid
      (mkSessionId lec.course_code e.timeStr) = 1 ∧
    ∀ r ∈ (processTap st e).1.attendance_log,
      r.session_id = mkSessionId lec.course_code e.timeStr →
      (r.status = "present" ∨ r.status = "partial") := by
  have hall := verifyItems_all_ok e.orc (mkSessionId lec.course_code e.timeStr)
    (dictUpdate st.persistent_rfid_attendance st.new_rfid_attendance)
    { st with
      remote_sessions := remoteSessionSet st.remote_sessions
        ⟨mkSessionId lec.course_code e.timeStr, lec.course_name, lec.course_code,
         lec.name, e.rfid, e.timeStr, "active"⟩,
      current_session := some (mkSessionId lec.course_code e.timeStr),
      persistent_rfid_attendance :=
        dictUpdate st.persistent_rfid_attendance st.new_rfid_attendance }
    (fun kv hm => hrows kv hm) (fun kv hm => hlocal kv hm)
  have hlogEq : (processTap st e).1.attendance_log = st.attendance_log ++
      (dictUpdate st.persistent_rfid_attendance st.new_rfid_attendance).map
        (mkVerifyRec e.orc (mkSessionId lec.course_code e.timeStr)) := by
    rw [processTap_owner hlec hok]
    exact hall.1
  constructor
  · unfold recordCount
    rw [hlogEq, List.countP_append]
    have hzero : st.attendance_log.countP (fun r => r.unique_id == uid &&
        r.session_id == mkSessionId lec.course_code e.timeStr) = 0 := by
      rw [List.countP_eq_zero]
      intro r hr
      simp only [Bool.and_eq_true, beq_iff_eq]
      rintro ⟨-, hs⟩
      exact hfresh r hr hs
    have hcong : ((dictUpdate st.persistent_rfid_attendance st.new_rfid_attendance).map
        (mkVerifyRec e.orc (mkSessionId lec.course_code e.timeStr))).countP
          (fun r => r.unique_id == uid &&
            r.session_id == mkSessionId lec.course_code e.timeStr) =
        (dictUpdate st.persistent_rfid_attendance st.new_rfid_attendance).countP
          (fun kv => kv.1 == uid) := by
      rw [List.countP_map]
      apply List.countP_congr
      intro kv _
      simp [mkVerifyRec, Function.comp]
    rw [hzero, hcong,
      countP_key_eq_one (nodup_dictKeys_dictUpdate hnodp) (mem_dictKeys_dictUpdate.mpr hmem)]
  · intro r hr hrs
    rw [hlogEq] at hr
    rcases List.mem_append.mp hr with hr | hr
    · exact absurd hrs (hfresh r hr)
    · obtain ⟨kv, hm, rfl⟩ := List.mem_map.mp hr
      by_cases hface : e.orc.face kv.1 = true
      · left; simp [mkVerifyRec, hface]
      · right; simp [mkVerifyRec, hface]

/-- Witness for C1: a lecturer tap on a state with three staged check-ins,
under the all-success oracle, yields exactly one record for `u1` under the new
session id, with status in the allowed set. -/
theorem c1_rollover_total_witness :
    lookupLecturer pendingSt (tapLec "20250110_090000").rfid = some lecRow ∧
    recordCount (processTap pendingSt (tapLec "20250110_090000")).1.attendance_log "u1"
      (mkSessionId lecRow.course_code "20250110_090000") = 1 ∧
    (∀ r ∈ (processTap pendingSt (tapLec "20250110_090000")).1.attendance_log,
      r.session_id = mkSessionId lecRow.course_code "20250110_090000" →
      (r.status = "present" ∨ r.status = "partial")) := by
  refine ⟨by decide, ?_⟩
  exact c1_rollover_total pendingSt (tapLec "20250110_090000") lecRow "u1"
    (by decide) (by decide) (by decide) (by decide) (by decide) (by decide)
    (Or.inr (by decide))

/-- C2 counterexample: the claim asserts a Confirmed attendee is never taken
through verification again in the run.  In the concrete run below, `u1` taps
(NewCheckIn), is verified at the first rollover, taps again (the tap itself
correctly reports DuplicateConfirmed), and then is verified a second time at
the next rollover: the capture-window trace records `u1` under both session
ids, because `verify_attendance` is always handed the entire persistent
dict. -/
theorem c2_counterexample :
    (runTaps baseSt [tapStu "t1", tapLec "20250110_090000", tapStu "t1",
        tapLec "20250110_091500"]).2 =
      [TapOutcome.newCheckIn "u1", TapOutcome.sessionStarted "CS101_20250110_090000",
       TapOutcome.duplicateConfirmed "u1",
       TapOutcome.sessionStarted "CS101_20250110_091500"] ∧
    (runTaps baseSt [tapStu "t1", tapLec "20250110_090000", tapStu "t1",
        tapLec "20250110_091500"]).1.verify_trace =
      [("CS101_20250110_090000", "u1"), ("CS101_20250110_091500", "u1")] := by
  exact ⟨rfl, rfl⟩

/-- C2 amended: a tap by an attendee already in the Confirmed set returns
DuplicateConfirmed with no state change whatsoever (so the tap itself triggers
no verification) — but the attendee is nonetheless taken through verification
again at every subsequent owner tap: on each rollover with successful writes,
a capture window for that attendee is opened under the new session id. -/
theorem c2_duplicate_confirmed (st : SysState) (e : TapInput) (srow : StudentRow)
    (eo : TapInput) (lec : LecturerRow) (uid : String) :
    (lookupLecturer st e.rfid = none → lookupStudent st e.rfid = some srow →
      dictHas st.persistent_rfid_attendance srow.unique_id = true →
      processTap st e = (st, TapOutcome.duplicateConfirmed srow.unique_id)) ∧
    (lookupLecturer st eo.rfid = some lec → eo.sessionOk = true →
      (∀ kv ∈ dictUpdate st.persistent_rfid_attendance st.new_rfid_attendance,
        (st.students.find? (fun r => r.unique_id == kv.1)).isSome) →
      (∀ kv ∈ dictUpdate st.persistent_rfid_attendance st.new_rfid_attendance,
        eo.orc.localOk kv.1 = true) →
      uid ∈ dictKeys st.persistent_rfid_attendance →
      (mkSessionId lec.course_code eo.timeStr, uid) ∈
        (processTap st eo).1.verify_trace) := by
  constructor
  · intro hnl hs hp
    exact processTap_duplicateConfirmed hnl hs hp
  · intro hlec hok hrows hlocal hmem
    have hall := verifyItems_all_ok eo.orc (mkSessionId lec.course_code eo.timeStr)
      (dictUpdate st.persistent_rfid_attendance st.new_rfid_attendance)
      { st with
        remote_sessions := remoteSessionSet st.remote_sessions
          ⟨mkSessionId lec.course_code eo.timeStr, lec.course_name, lec.course_code,
           lec.name, eo.rfid, eo.timeStr, "active"⟩,
        current_session := some (mkSessionId lec.course_code eo.timeStr),
        persistent_rfid_attendance :=
          dictUpdate st.persistent_rfid_attendance st.new_rfid_attendance }
      (fun kv hm => hrows kv hm) (fun kv hm => hlocal kv hm)
    have htrEq : (processTap st eo).1.verify_trace = st.verify_trace ++
        (dictUpdate st.persistent_rfid_attendance st.new_rfid_attendance).map
          (fun kv => (mkSessionId lec.course_code eo.timeStr, kv.1)) := by
      rw [processTap_owner hlec hok]
      exact hall.2
    rw [htrEq]
    apply List.mem_append_right
    have hmem' : uid ∈ dictKeys
        (dictUpdate st.persistent_rfid_attendance st.new_rfid_attendance) :=
      mem_dictKeys_dictUpdate.mpr (Or.inl hmem)
    obtain ⟨kv, hkv, hfst⟩ := List.mem_map.mp hmem'
    exact List.mem_map.mpr ⟨kv, hkv, by rw [hfst]⟩

/-- Witness for C2 amended: in a state where `u1` is Confirmed, their re-tap
is a pure DuplicateConfirmed no-op, and the next lecturer tap re-opens a
verification window for `u1`. -/
theorem c2_duplicate_confirmed_witness :
    processTap confSt (tapStu "t1") = (confSt, TapOutcome.duplicateConfirmed "u1") ∧
    (mkSessionId lecRow.course_code "20250110_090000", "u1") ∈
      (processTap confSt (tapLec "20250110_090000")).1.verify_trace := by
  constructor
  · exact ((c2_duplicate_confirmed confSt (tapStu "t1") stuA (tapLec "20250110_090000")
      lecRow "u1").1 (by decide) (by decide) (by decide))
  · exact ((c2_duplicate_confirmed confSt (tapStu "t1") stuA (tapLec "20250110_090000")
      lecRow "u1").2 (by decide) (by decide) (by decide) (by decide) (by decide))

/-- C3: in every reachable state every identity appears in at most one of the
Confirmed (persistent) and New staging dicts (and each dict is duplicate-free);
a first tap by a registered attendee in neither set appends exactly that
attendee to New and returns NewCheckIn; a repeat tap while in Confirmed (resp.
New) is a strict no-op returning DuplicateConfirmed (resp.
DuplicateInSession). -/
theorem c3_staging_discipline :
    (∀ ops : List Op, StagingInv (runOps ops)) ∧
    (∀ (st : SysState) (e : TapInput) (srow : StudentRow),
      lookupLecturer st e.rfid = none → lookupStudent st e.rfid = some srow →
      dictHas st.persistent_rfid_attendance srow.unique_id = false →
      dictHas st.new_rfid_attendance srow.unique_id = false →
      processTap st e =
        ({ st with new_rfid_attendance := st.new_rfid_attendance ++
            [(srow.unique_id, ⟨srow.name, e.timeStr⟩)] },
         TapOutcome.newCheckIn srow.unique_id)) ∧
    (∀ (st : SysState) (e : TapInput) (srow : StudentRow),
      lookupLecturer st e.rfid = none → lookupStudent st e.rfid = some srow →
      dictHas st.persistent_rfid_attendance srow.unique_id = true →
      processTap st e = (st, TapOutcome.duplicateConfirmed srow.unique_id)) ∧
    (∀ (st : SysState) (e : TapInput) (srow : StudentRow),
      lookupLecturer st e.rfid = none → lookupStudent st e.rfid = some srow →
      dictHas st.persistent_rfid_attendance srow.unique_id = false →
      dictHas st.new_rfid_attendance srow.unique_id = true →
      processTap st e = (st, TapOutcome.duplicateInSession srow.unique_id)) := by
  refine ⟨stagingInv_runOps, ?_, ?_, ?_⟩
  · intro st e srow hnl hs hp hn
    exact processTap_newCheckIn hnl hs hp hn
  · intro st e srow hnl hs hp
    exact processTap_duplicateConfirmed hnl hs hp
  · intro st e srow hnl hs hp hn
    exact processTap_duplicateInSession hnl hs hp hn

/-- Witness for C3 at concrete states: the invariant after a concrete run,
one fresh staging tap, and the two duplicate no-ops. -/
theorem c3_staging_discipline_witness :
    StagingInv (runOps [Op.tap (tapStu "t1")]) ∧
    processTap baseSt (tapStu "t1") =
      ({ baseSt with new_rfid_attendance := [("u1", ⟨"Ada", "08:00:00"⟩)] },
       TapOutcome.newCheckIn "u1") ∧
    processTap confSt (tapStu "t1") = (confSt, TapOutcome.duplicateConfirmed "u1") ∧
    processTap pendingSt (tapStu "t1") =
      (pendingSt, TapOutcome.duplicateInSession "u1") := by
  refine ⟨c3_staging_discipline.1 [Op.tap (tapStu "t1")], ?_, ?_, ?_⟩
  · exact c3_staging_discipline.2.1 baseSt (tapStu "t1") stuA
      (by decide) (by decide) (by decide) (by decide)
  · exact c3_staging_discipline.2.2.1 confSt (tapStu "t1") stuA
      (by decide) (by decide) (by decide)
  · exact c3_staging_discipline.2.2.2 pendingSt (tapStu "t1") stuA
      (by decide) (by decide) (by decide) (by decide)

/-- C4 counterexample: two distinct owner taps in the same wall-clock second
(same `strftime('%Y%m%d_%H%M%S')` output) derive the very same session id, so
session-id derivation is not collision-free within a run. -/
theorem c4_counterexample :
    (runTaps baseSt [tapLec "20250110_090000", tapLec "20250110_090000"]).2 =
      [TapOutcome.sessionStarted "CS101_20250110_090000",
       TapOutcome.sessionStarted "CS101_20250110_090000"] := by
  rfl

/-- C4 amended: session ids derived from two owner taps are distinct provided
the taps differ in course code or in their formatted timestamp (the `strftime`
output, which has a fixed length, so equal-length time strings are the
faithful hypothesis); only two taps by lecturers with the same course code in
the same second collide. -/
theorem c4_session_id_inj (c1 t1 c2 t2 : String) (hlen : t1.length = t2.length)
    (hne : c1 ≠ c2 ∨ t1 ≠ t2) : mkSessionId c1 t1 ≠ mkSessionId c2 t2 := by
  intro heq
  unfold mkSessionId at heq
  have hdata := congrArg String.data heq
  rw [String.data_append, String.data_append, String.data_append, String.data_append]
    at hdata
  have hlen' : t1.data.length = t2.data.length := hlen
  obtain ⟨hpre, hsuf⟩ := List.append_inj' hdata hlen'
  obtain ⟨hc, -⟩ := List.append_inj' hpre rfl
  rcases hne with h | h
  · exact h (String.ext hc)
  · exact h (String.ext hsuf)

/-- Witness for C4 amended: same course code, timestamps one second apart —
distinct session ids. -/
theorem c4_session_id_inj_witness :
    ("20250110_090000" : String).length = ("20250110_091500" : String).length ∧
    mkSessionId "CS101" "20250110_090000" ≠ mkSessionId "CS101" "20250110_091500" :=
  ⟨rfl, c4_session_id_inj "CS101" "20250110_090000" "CS101" "20250110_091500" rfl
    (Or.inr (by decide))⟩

/-- C5 counterexample: the claim says a local-store write failure aborts only
that record and processing continues with the next pending record.  In the run
below the insert for `u1` fails, and `u2` — whose insert would have succeeded —
also gets no AttendanceRecord, because the exception is caught outside the
whole batch loop; the intake loop itself does continue (`u3` is still staged
afterwards). -/
theorem c5_counterexample :
    (runTaps baseSt [tapStu "t1", tapStu "t2", tapLecLocalFail "20250110_090000",
        tapStu "t3"]).1.attendance_log = [] ∧
    (runTaps baseSt [tapStu "t1", tapStu "t2", tapLecLocalFail "20250110_090000",
        tapStu "t3"]).2 =
      [TapOutcome.newCheckIn "u1", TapOutcome.newCheckIn "u2",
       TapOutcome.sessionStarted "CS101_20250110_090000", TapOutcome.newCheckIn "u3"] := by
  exact ⟨rfl, rfl⟩

/-- C5 amended: a local-store write failure during a verification pass is
caught and logged and never terminates the intake loop (the owner tap still
reports its new session and subsequent taps are processed), but it aborts the
record being written AND all remaining records of that batch: exactly the
records before the failing identity are appended, nothing for it or for the
identities after it. -/
theorem c5_local_failure_scope (st : SysState) (e : TapInput) (lec : LecturerRow)
    (d₁ : TapDict) (u : String) (v : TapData) (d₂ : TapDict)
    (hlec : lookupLecturer st e.rfid = some lec)
    (hok : e.sessionOk = true)
    (hsplit : dictUpdate st.persistent_rfid_attendance st.new_rfid_attendance =
      d₁ ++ (u, v) :: d₂)
    (hrows : ∀ kv ∈ d₁, (st.students.find? (fun r => r.unique_id == kv.1)).isSome)
    (hlocal : ∀ kv ∈ d₁, e.orc.localOk kv.1 = true)
    (hremote : ∀ kv ∈ d₁, e.orc.remoteOk kv.1 = true)
    (hrow : (st.students.find? (fun r => r.unique_id == u)).isSome)
    (hfail : e.orc.localOk u = false) :
    (processTap st e).2 =
      TapOutcome.sessionStarted (mkSessionId lec.course_code e.timeStr) ∧
    (processTap st e).1.attendance_log = st.attendance_log ++
      d₁.map (mkVerifyRec e.orc (mkSessionId lec.course_code e.timeStr)) ∧
    (processTap st e).1.errlog = st.errlog ++ ["Face recognition attendance error"] ∧
    ∀ es, runTaps st (e :: es) =
      ((runTaps (processTap st e).1 es).1,
        TapOutcome.sessionStarted (mkSessionId lec.course_code e.timeStr) ::
          (runTaps (processTap st e).1 es).2) := by
  have hfl := verifyItems_fail e.orc (mkSessionId lec.course_code e.timeStr) u v d₂ d₁
    { st with
      remote_sessions := remoteSessionSet st.remote_sessions
        ⟨mkSessionId lec.course_code e.timeStr, lec.course_name, lec.course_code,
         lec.name, e.rfid, e.timeStr, "active"⟩,
      current_session := some (mkSessionId lec.course_code e.timeStr),
      persistent_rfid_attendance := d₁ ++ (u, v) :: d₂ }
    (fun kv hm => hrows kv hm) hlocal hremote rfl hrow hfail
  have hout : (processTap st e).2 =
      TapOutcome.sessionStarted (mkSessionId lec.course_code e.timeStr) := by
    rw [processTap_owner hlec hok]
  refine ⟨hout, ?_, ?_, ?_⟩
  · rw [processTap_owner hlec hok, hsplit]
    exact hfl.1
  · rw [processTap_owner hlec hok, hsplit]
    exact hfl.2
  · intro es
    simp only [runTaps, hout]
    simp

/-- Witness for C5 amended at a concrete batch `u2, u1, u3` with the local
insert failing on `u1`: only `u2`'s record is written and the error is
logged. -/
theorem c5_local_failure_scope_witness :
    dictUpdate pendingSt.persistent_rfid_attendance pendingSt.new_rfid_attendance =
      [("u2", ⟨"Bob", "08:00:00"⟩)] ++ ("u1", ⟨"Ada", "08:00:01"⟩) ::
        [("u3", ⟨"Cyn", "08:00:02"⟩)] ∧
    (processTap pendingSt (tapLecLocalFail "20250110_090000")).2 =
      TapOutcome.sessionStarted (mkSessionId lecRow.course_code "20250110_090000") ∧
    (processTap pendingSt (tapLecLocalFail "20250110_090000")).1.attendance_log =
      pendingSt.attendance_log ++ [("u2", (⟨"Bob", "08:00:00"⟩ : TapData))].map
        (mkVerifyRec oracleLocalFail (mkSessionId lecRow.course_code "20250110_090000")) ∧
    (processTap pendingSt (tapLecLocalFail "20250110_090000")).1.errlog =
      pendingSt.errlog ++ ["Face recognition attendance error"] := by
  have h := c5_local_failure_scope pendingSt (tapLecLocalFail "20250110_090000") lecRow
    [("u2", ⟨"Bob", "08:00:00"⟩)] "u1" ⟨"Ada", "08:00:01"⟩ [("u3", ⟨"Cyn", "08:00:02"⟩)]
    (by decide) (by decide) (by decide) (by decide) (by decide) (by decide)
    (by decide) (by decide)
  exact ⟨by decide, h.1, h.2.1, h.2.2.1⟩

/-- C6: the local store is independent of remote-store availability.  Two
runs from locally equal states on tap sequences that agree on everything
except the remote mirror write outcomes produce identical local attendance
logs (same records, hence same statuses), identical local state, and identical
tap outcomes. -/
theorem c6_remote_write_independent {st1 st2 : SysState} {es1 es2 : List TapInput}
    (h : LocalEq st1 st2) (hf : List.Forall₂ SameButRemote es1 es2) :
    (runTaps st1 es1).1.attendance_log = (runTaps st2 es2).1.attendance_log ∧
    LocalEq (runTaps st1 es1).1 (runTaps st2 es2).1 ∧
    (runTaps st1 es1).2 = (runTaps st2 es2).2 := by
  have hr := runTaps_localEq hf h
  exact ⟨hr.1.2.2.1, hr.1, hr.2⟩

/-- Witness for C6: the same scripted run under all-success remote writes and
under a fully unavailable remote mirror yields identical local attendance logs
and outcomes. -/
theorem c6_remote_write_independent_witness :
    (runTaps baseSt [tapStu "t1", tapLec "20250110_090000"]).1.attendance_log =
      (runTaps baseSt [tapStu "t1", tapLecRemoteFail "20250110_090000"]).1.attendance_log ∧
    (runTaps baseSt [tapStu "t1", tapLec "20250110_090000"]).2 =
      (runTaps baseSt [tapStu "t1", tapLecRemoteFail "20250110_090000"]).2 := by
  have h := @c6_remote_write_independent baseSt baseSt
    [tapStu "t1", tapLec "20250110_090000"]
    [tapStu "t1", tapLecRemoteFail "20250110_090000"]
    (localEq_refl baseSt)
    (List.Forall₂.cons ⟨rfl, rfl, rfl, rfl, ⟨rfl, rfl, rfl, rfl⟩⟩
      (List.Forall₂.cons ⟨rfl, rfl, rfl, rfl, ⟨rfl, rfl, rfl, rfl⟩⟩ List.Forall₂.nil))
  exact ⟨h.1, h.2.2⟩

/-- C7 (code bug): evaluating the `KeyboardInterrupt` cleanup on a mid-run
state shows that `current_session` is reset and the dead `temp_attendance`
dict is cleared, but both staging sets — the Confirmed (persistent) and the
New dict — survive the interrupt with their contents intact, contradicting
the claim that both staging sets are cleared. -/
theorem c7_interrupt_keeps_staging :
    (interruptCleanup haltSt).current_session = none ∧
    (interruptCleanup haltSt).temp_attendance = [] ∧
    (interruptCleanup haltSt).persistent_rfid_attendance = [("u1", ⟨"Ada", "08:00:00"⟩)] ∧
    (interruptCleanup haltSt).new_rfid_attendance = [("u2", ⟨"Bob", "08:05:00"⟩)] := by
  exact ⟨rfl, rfl, rfl, rfl⟩
